import Mathlib

/-
Shallow embedding of the greeting service from
KulbhushanBhalerao/grpc-proto-demo-golang.

The repository has two components in src/client/main.go (client followed by
server): a unary handler SayHello, a server-streaming handler
SayHelloMultiple, and a client that issues one 5-second-bounded unary call
and one unbounded streaming call consumed by a blocking receive loop.
-/

/-- Protobuf message HelloRequest: a single string field name. -/
structure HelloRequest where
  name : String
deriving DecidableEq, Repr

/-- Protobuf message HelloResponse: string field message and int32 field
count.  count is modelled as an Int together with the explicit int32
wrap-around performed by the Go conversion int32(i). -/
structure HelloResponse where
  message : String
  count : Int
deriving DecidableEq, Repr

/-- Two's-complement wrap of an integer into the int32 range, as performed
by Go's int32(i) conversion. -/
def int32 (n : Int) : Int :=
  (n + 2 ^ 31) % 2 ^ 32 - 2 ^ 31

/-- Server handler SayHello (server main.go): builds a HelloResponse with
message fmt.Sprintf("Hello, %s! Welcome to gRPC with Go!", req.GetName())
and Count 1, and returns it with a nil error. -/
def sayHello (req : HelloRequest) : HelloResponse :=
  { message := "Hello, " ++ req.name ++ "! Welcome to gRPC with Go!"
    count := 1 }

/-- The response built inside iteration i of the SayHelloMultiple loop:
message fmt.Sprintf("Hello #%d, %s! Streaming response %d of 5", i,
req.GetName(), i) and Count int32(i). -/
def helloMultipleResponse (name : String) (i : Nat) : HelloResponse :=
  { message := "Hello #" ++ toString i ++ ", " ++ name ++
      "! Streaming response " ++ toString i ++ " of 5"
    count := int32 (Int.ofNat i) }

/-- Observable events of the streaming handler: stream.Send invoked on a
response, and time.Sleep(1 * time.Second). -/
inductive ServerEvent where
  | sent (r : HelloResponse)
  | slept1s
deriving DecidableEq, Repr

/-- The loop body of SayHelloMultiple, for i := 1; i <= 5; i++ starting at
index i.  so gives the outcome of each stream.Send (none = success, some e
= transport failure).  The fuel argument bounds the recursion; the loop
performs at most 5 iterations, so any fuel of at least 6 is exact.  On a
failed Send the handler returns the error at once (no sleep, no further
iterations); on success it sleeps one second and continues.  Returns the
event trace and the handler's returned error (none models return nil). -/
def serverLoopFuel (name : String) (so : Nat → Option String) :
    Nat → Nat → List ServerEvent × Option String
  | _, 0 => ([], none)
  | i, fuel + 1 =>
    if i ≤ 5 then
      let r := helloMultipleResponse name i
      match so i with
      | some e => ([ServerEvent.sent r], some e)
      | none =>
        let rest := serverLoopFuel name so (i + 1) fuel
        (ServerEvent.sent r :: ServerEvent.slept1s :: rest.1, rest.2)
    else ([], none)

/-- Server handler SayHelloMultiple: runs the loop from i = 1. -/
def sayHelloMultipleRun (name : String) (so : Nat → Option String) :
    List ServerEvent × Option String :=
  serverLoopFuel name so 1 6

/-- Send oracle in which every stream.Send succeeds. -/
def allSendsOk : Nat → Option String := fun _ => none

/-- The responses on which stream.Send was invoked, in order, read off an
event trace. -/
def sentResponses (events : List ServerEvent) : List HelloResponse :=
  events.filterMap fun ev =>
    match ev with
    | ServerEvent.sent r => some r
    | ServerEvent.slept1s => none

/-- The ordered response sequence a fault-free streaming call delivers. -/
def serverStreamResponses (name : String) : List HelloResponse :=
  sentResponses (sayHelloMultipleRun name allSendsOk).1

/-- One outcome of stream.Recv as observed by the client: a response, the
io.EOF sentinel, or any other error. -/
inductive RecvOutcome where
  | item (r : HelloResponse)
  | eof
  | failed (e : String)
deriving DecidableEq, Repr

/-- Result of the client receive loop: the loop breaks normally after
processing the listed responses, or log.Fatalf terminates the process after
processing the listed responses. -/
inductive ClientLoopResult where
  | completed (processed : List HelloResponse)
  | fatal (processed : List HelloResponse) (e : String)
deriving DecidableEq, Repr

/-- Record one more processed response in front of a loop result. -/
def ClientLoopResult.consItem (r : HelloResponse) :
    ClientLoopResult → ClientLoopResult
  | ClientLoopResult.completed rs => ClientLoopResult.completed (r :: rs)
  | ClientLoopResult.fatal rs e => ClientLoopResult.fatal (r :: rs) e

/-- The client streaming receive loop (client main.go lines 50-62): each
iteration calls stream.Recv; on io.EOF it breaks out of the loop, on any
other error it calls log.Fatalf, otherwise it prints the response and
loops.  The argument lists the successive Recv outcomes the stream will
deliver; the result is none when the list is exhausted before a terminal
signal (the real loop would still be blocked in Recv). -/
def clientRecvLoop : List RecvOutcome → Option ClientLoopResult
  | [] => none
  | RecvOutcome.eof :: _ => some (ClientLoopResult.completed [])
  | RecvOutcome.failed e :: _ => some (ClientLoopResult.fatal [] e)
  | RecvOutcome.item r :: rest =>
    (clientRecvLoop rest).map (ClientLoopResult.consItem r)

/-- Timeout the client attaches to the unary call (client main.go line 31):
context.WithTimeout(context.Background(), 5*time.Second), in seconds. -/
def unaryCallTimeoutSeconds : Option Nat := some 5

/-- Context of the client streaming call (client main.go line 44):
context.Background(), i.e. no timeout. -/
def streamingCallTimeoutSeconds : Option Nat := none

/-- What the client does next after a call returns. -/
inductive ClientAction where
  | proceed
  | fatalExit (msg : String)
deriving DecidableEq, Repr

/-- Outcome of the unary call as seen by the client. -/
inductive UnaryOutcome where
  | response (r : HelloResponse)
  | deadlineExceeded
deriving DecidableEq, Repr

/-- Modelled from the spec: the RPC substrate's deadline enforcement is an
external collaborator not implemented in this repository.  Per the spec's
glossary, a deadline is "a maximum wall-clock duration allowed for a call
before it is abandoned by the caller": if the handler takes longer than the
attached timeout, the call fails with a deadline-exceeded condition instead
of hanging; with no timeout attached the response is simply delivered. -/
def runUnaryWithDeadline (timeout : Option Nat) (handlerSeconds : Nat)
    (req : HelloRequest) : UnaryOutcome :=
  match timeout with
  | none => UnaryOutcome.response (sayHello req)
  | some d =>
    if d < handlerSeconds then UnaryOutcome.deadlineExceeded
    else UnaryOutcome.response (sayHello req)

/-- Client reaction to the unary call result (client main.go lines 35-40):
any error is fatal via log.Fatalf, otherwise the client proceeds. -/
def clientUnaryReaction : UnaryOutcome → ClientAction
  | UnaryOutcome.response _ => ClientAction.proceed
  | UnaryOutcome.deadlineExceeded =>
    ClientAction.fatalExit "Error calling SayHello"

/-- String concatenation is associative (helper for the template lemmas). -/
theorem strAppend_assoc (a b c : String) : a ++ b ++ c = a ++ (b ++ c) := by
  apply String.ext
  simp [String.data_append, List.append_assoc]

/-- A fault-free streaming run sends exactly the five loop responses. -/
theorem serverStreamResponses_eq (name : String) :
    serverStreamResponses name =
      [helloMultipleResponse name 1, helloMultipleResponse name 2,
       helloMultipleResponse name 3, helloMultipleResponse name 4,
       helloMultipleResponse name 5] := rfl

-- Quick sanity examples (evaluation of the embedding on concrete input).
example : (sayHello ⟨"Alice"⟩).message = "Hello, Alice! Welcome to gRPC with Go!" := by
  decide

example : (serverStreamResponses "Bob").length = 5 := by decide

example : (sayHelloMultipleRun "Bob" allSendsOk).2 = none := by decide

example :
    clientRecvLoop [RecvOutcome.item (sayHello ⟨"A"⟩), RecvOutcome.eof] =
      some (ClientLoopResult.completed [sayHello ⟨"A"⟩]) := by decide

/-- C1: for every request, SayHello returns a response whose message is
"Hello, {name}! Welcome to gRPC with Go!" with the request's name
substituted, and whose count is 1; in particular for name "Alice" the
message is "Hello, Alice! Welcome to gRPC with Go!" and count is 1. -/
theorem sayHello_message_and_count (req : HelloRequest) :
    sayHello req =
      { message := "Hello, " ++ req.name ++ "! Welcome to gRPC with Go!"
        count := 1 } ∧
    sayHello { name := "Alice" } =
      { message := "Hello, Alice! Welcome to gRPC with Go!", count := 1 } :=
  ⟨rfl, by decide⟩

/-- C5 counterexample: for the empty name, the response message is the full
greeting "Hello, ! Welcome to gRPC with Go!", not the string "Hello, !". -/
theorem sayHello_empty_name_counterexample :
    (sayHello { name := "" }).message ≠ "Hello, !" := by decide

/-- C5 amended: the empty name is legal input (SayHello is total on it) and
the resulting message is "Hello, ! Welcome to gRPC with Go!", which begins
with "Hello, !". -/
theorem sayHello_empty_name_amended :
    sayHello { name := "" } =
      { message := "Hello, ! Welcome to gRPC with Go!", count := 1 } ∧
    "Hello, !".data.isPrefixOf (sayHello { name := "" }).message.data =
      true := by
  decide

/-- C6: within one streaming call the counts are exactly 1,2,3,4,5 — a
strictly increasing sequence starting at 1 — and the unary response's
count is always 1. -/
theorem response_count_invariant (name : String) (req : HelloRequest) :
    (serverStreamResponses name).map HelloResponse.count = [1, 2, 3, 4, 5] ∧
    List.Chain' (fun a b => a < b)
      ((serverStreamResponses name).map HelloResponse.count) ∧
    ((serverStreamResponses name).map HelloResponse.count).head? = some 1 ∧
    (sayHello req).count = 1 := by
  have hc : (serverStreamResponses name).map HelloResponse.count =
      [1, 2, 3, 4, 5] := by
    rw [serverStreamResponses_eq]
    show [int32 (Int.ofNat 1), int32 (Int.ofNat 2), int32 (Int.ofNat 3),
      int32 (Int.ofNat 4), int32 (Int.ofNat 5)] = [1, 2, 3, 4, 5]
    decide
  refine ⟨hc, ?_, ?_, rfl⟩
  · rw [hc]
    norm_num [List.chain'_cons]
  · rw [hc]
    rfl

/-- C7: the unary SayHello operation is deterministic — two requests with
equal name fields yield identical messages (indeed identical responses). -/
theorem sayHello_deterministic (r1 r2 : HelloRequest)
    (h : r1.name = r2.name) :
    (sayHello r1).message = (sayHello r2).message ∧
    sayHello r1 = sayHello r2 := by
  cases r1
  cases r2
  cases h
  exact ⟨rfl, rfl⟩

/-- C7 witness: determinism instantiated at two requests named "Alice". -/
theorem sayHello_deterministic_witness :
    (sayHello { name := "Alice" }).message =
      (sayHello { name := "Alice" }).message ∧
    sayHello { name := "Alice" } = sayHello { name := "Alice" } :=
  sayHello_deterministic { name := "Alice" } { name := "Alice" } rfl

/-- C10: the streaming operation is deterministic as well — equal names
produce identical ordered (message, count) sequences and identical
terminal results. -/
theorem sayHelloMultiple_deterministic (n1 n2 : String) (h : n1 = n2) :
    (serverStreamResponses n1).map (fun r => (r.message, r.count)) =
      (serverStreamResponses n2).map (fun r => (r.message, r.count)) ∧
    (sayHelloMultipleRun n1 allSendsOk).2 =
      (sayHelloMultipleRun n2 allSendsOk).2 := by
  cases h
  exact ⟨rfl, rfl⟩

/-- C10 witness: streaming determinism instantiated at name "Bob". -/
theorem sayHelloMultiple_deterministic_witness :
    (serverStreamResponses "Bob").map (fun r => (r.message, r.count)) =
      (serverStreamResponses "Bob").map (fun r => (r.message, r.count)) ∧
    (sayHelloMultipleRun "Bob" allSendsOk).2 =
      (sayHelloMultipleRun "Bob" allSendsOk).2 :=
  sayHelloMultiple_deterministic "Bob" "Bob" rfl

/-- C2: for every name the streaming operation produces exactly 5 responses
in order, the i-th carrying message "Hello #{i}, {name}! Streaming response
{i} of 5" and count i, then returns nil (clean end-of-stream) with no
further items; concretely so for name "Bob". -/
theorem sayHelloMultiple_stream_contents (name : String) :
    serverStreamResponses name =
      [{ message := "Hello #1, " ++ name ++ "! Streaming response 1 of 5"
         count := 1 },
       { message := "Hello #2, " ++ name ++ "! Streaming response 2 of 5"
         count := 2 },
       { message := "Hello #3, " ++ name ++ "! Streaming response 3 of 5"
         count := 3 },
       { message := "Hello #4, " ++ name ++ "! Streaming response 4 of 5"
         count := 4 },
       { message := "Hello #5, " ++ name ++ "! Streaming response 5 of 5"
         count := 5 }] ∧
    (sayHelloMultipleRun name allSendsOk).2 = none ∧
    serverStreamResponses "Bob" =
      [{ message := "Hello #1, Bob! Streaming response 1 of 5", count := 1 },
       { message := "Hello #2, Bob! Streaming response 2 of 5", count := 2 },
       { message := "Hello #3, Bob! Streaming response 3 of 5", count := 3 },
       { message := "Hello #4, Bob! Streaming response 4 of 5", count := 4 },
       { message := "Hello #5, Bob! Streaming response 5 of 5", count := 5 }] := by
  refine ⟨?_, rfl, by decide⟩
  rw [serverStreamResponses_eq]
  simp only [helloMultipleResponse, strAppend_assoc]
  rfl

/-- C9 counterexample: the handler's event trace for name "Bob" is not the
claimed trace that ends with the 5th send — the code sleeps one second
after every send, including the last one before end-of-stream. -/
theorem streaming_sleep_counterexample :
    (sayHelloMultipleRun "Bob" allSendsOk).1 ≠
      [ServerEvent.sent
         { message := "Hello #1, Bob! Streaming response 1 of 5", count := 1 },
       ServerEvent.slept1s,
       ServerEvent.sent
         { message := "Hello #2, Bob! Streaming response 2 of 5", count := 2 },
       ServerEvent.slept1s,
       ServerEvent.sent
         { message := "Hello #3, Bob! Streaming response 3 of 5", count := 3 },
       ServerEvent.slept1s,
       ServerEvent.sent
         { message := "Hello #4, Bob! Streaming response 4 of 5", count := 4 },
       ServerEvent.slept1s,
       ServerEvent.sent
         { message := "Hello #5, Bob! Streaming response 5 of 5", count := 5 }] := by
  decide

/-- C9 amended: every one of the 5 sends, the last included, is followed by
exactly one 1-second suspension, so a suspension does separate the 5th
emission from the end-of-stream signal. -/
theorem streaming_sleep_trace (name : String) :
    (sayHelloMultipleRun name allSendsOk).1 =
      [ServerEvent.sent (helloMultipleResponse name 1), ServerEvent.slept1s,
       ServerEvent.sent (helloMultipleResponse name 2), ServerEvent.slept1s,
       ServerEvent.sent (helloMultipleResponse name 3), ServerEvent.slept1s,
       ServerEvent.sent (helloMultipleResponse name 4), ServerEvent.slept1s,
       ServerEvent.sent (helloMultipleResponse name 5), ServerEvent.slept1s] ∧
    (sayHelloMultipleRun name allSendsOk).1.getLast? =
      some ServerEvent.slept1s :=
  ⟨rfl, rfl⟩

/-- C3: if the i-th stream.Send fails (1 ≤ i ≤ 5) while the earlier sends
succeed, the handler returns exactly that failure as its terminal error, and
Send was invoked on exactly items 1..i — no item beyond i is sent. -/
theorem sayHelloMultiple_send_failure (name : String)
    (so : Nat → Option String) (i : Nat) (e : String)
    (h1 : 1 ≤ i) (h5 : i ≤ 5)
    (hok : ∀ j, 1 ≤ j → j < i → so j = none) (hfail : so i = some e) :
    sentResponses (sayHelloMultipleRun name so).1 =
      (List.range i).map (fun k => helloMultipleResponse name (k + 1)) ∧
    (sayHelloMultipleRun name so).2 = some e := by
  interval_cases i
  · simp [sayHelloMultipleRun, serverLoopFuel, sentResponses, hfail,
      List.range_succ]
  · have e1 := hok 1 (by norm_num) (by norm_num)
    simp [sayHelloMultipleRun, serverLoopFuel, sentResponses, e1, hfail,
      List.range_succ]
  · have e1 := hok 1 (by norm_num) (by norm_num)
    have e2 := hok 2 (by norm_num) (by norm_num)
    simp [sayHelloMultipleRun, serverLoopFuel, sentResponses, e1, e2, hfail,
      List.range_succ]
  · have e1 := hok 1 (by norm_num) (by norm_num)
    have e2 := hok 2 (by norm_num) (by norm_num)
    have e3 := hok 3 (by norm_num) (by norm_num)
    simp [sayHelloMultipleRun, serverLoopFuel, sentResponses, e1, e2, e3,
      hfail, List.range_succ]
  · have e1 := hok 1 (by norm_num) (by norm_num)
    have e2 := hok 2 (by norm_num) (by norm_num)
    have e3 := hok 3 (by norm_num) (by norm_num)
    have e4 := hok 4 (by norm_num) (by norm_num)
    simp [sayHelloMultipleRun, serverLoopFuel, sentResponses, e1, e2, e3, e4,
      hfail, List.range_succ]

/-- C3 witness: the 2nd send fails with "transport closed"; exactly items
1 and 2 were sent and the handler's terminal error is that failure. -/
theorem sayHelloMultiple_send_failure_witness :
    sentResponses
        (sayHelloMultipleRun "Bob"
          (fun j => if j = 2 then some "transport closed" else none)).1 =
      (List.range 2).map (fun k => helloMultipleResponse "Bob" (k + 1)) ∧
    (sayHelloMultipleRun "Bob"
        (fun j => if j = 2 then some "transport closed" else none)).2 =
      some "transport closed" :=
  sayHelloMultiple_send_failure "Bob"
    (fun j => if j = 2 then some "transport closed" else none) 2
    "transport closed" (by norm_num) (by norm_num)
    (by
      intro j hj1 hj2
      have hj : j = 1 := by omega
      subst hj
      rfl)
    rfl

/-- C4: the client receive loop processes every received item in arrival
order; it exits normally exactly when the stream signals io.EOF (any run
ending in clean completion consumed only items before an EOF signal); and
on any other receive error it terminates the process fatally, keeping the
items processed so far. -/
theorem clientRecvLoop_spec :
    (∀ (rs : List HelloResponse) (tail : List RecvOutcome),
      clientRecvLoop (rs.map RecvOutcome.item ++ RecvOutcome.eof :: tail) =
        some (ClientLoopResult.completed rs)) ∧
    (∀ (rs : List HelloResponse) (tail : List RecvOutcome) (e : String),
      clientRecvLoop (rs.map RecvOutcome.item ++ RecvOutcome.failed e :: tail) =
        some (ClientLoopResult.fatal rs e)) ∧
    (∀ (xs : List RecvOutcome) (ps : List HelloResponse),
      clientRecvLoop xs = some (ClientLoopResult.completed ps) →
      ∃ tail, xs = ps.map RecvOutcome.item ++ RecvOutcome.eof :: tail) := by
  refine ⟨?_, ?_, ?_⟩
  · intro rs tail
    induction rs with
    | nil => rfl
    | cons r rest ih =>
      simp [clientRecvLoop, ih, ClientLoopResult.consItem]
  · intro rs tail e
    induction rs with
    | nil => rfl
    | cons r rest ih =>
      simp [clientRecvLoop, ih, ClientLoopResult.consItem]
  · intro xs
    induction xs with
    | nil =>
      intro ps h
      simp [clientRecvLoop] at h
    | cons x rest ih =>
      intro ps h
      cases x with
      | eof =>
        simp [clientRecvLoop] at h
        subst h
        exact ⟨rest, rfl⟩
      | failed e =>
        simp [clientRecvLoop] at h
      | item r =>
        simp [clientRecvLoop] at h
        rcases hmap : clientRecvLoop rest with _ | res
        · rw [hmap] at h
          simp at h
        · rw [hmap] at h
          simp at h
          cases res with
          | completed qs =>
            simp [ClientLoopResult.consItem] at h
            obtain ⟨tail, htail⟩ := ih qs hmap
            subst htail
            exact ⟨tail, by simp [← h]⟩
          | fatal qs e =>
            simp [ClientLoopResult.consItem] at h

/-- C4 witness: a run delivering one item then io.EOF completes normally
having processed exactly that item, and the completed run is of the
item-then-EOF shape. -/
theorem clientRecvLoop_spec_witness :
    clientRecvLoop
        ([sayHello ⟨"Alice"⟩].map RecvOutcome.item ++ RecvOutcome.eof :: []) =
      some (ClientLoopResult.completed [sayHello ⟨"Alice"⟩]) ∧
    (∃ tail,
      ([sayHello ⟨"Alice"⟩].map RecvOutcome.item ++ RecvOutcome.eof :: []) =
        [sayHello ⟨"Alice"⟩].map RecvOutcome.item ++ RecvOutcome.eof :: tail) :=
  ⟨clientRecvLoop_spec.1 [sayHello ⟨"Alice"⟩] [],
   clientRecvLoop_spec.2.2
     ([sayHello ⟨"Alice"⟩].map RecvOutcome.item ++ RecvOutcome.eof :: [])
     [sayHello ⟨"Alice"⟩]
     (clientRecvLoop_spec.1 [sayHello ⟨"Alice"⟩] [])⟩

/-- C8: the client's unary call carries a 5-second timeout, so a handler
taking longer than 5 seconds yields deadline-exceeded (not a hang), which
the client treats as fatal; the streaming call carries no timeout. -/
theorem unary_timeout_spec (t : Nat) (req : HelloRequest) (h : 5 < t) :
    runUnaryWithDeadline unaryCallTimeoutSeconds t req =
      UnaryOutcome.deadlineExceeded ∧
    clientUnaryReaction (runUnaryWithDeadline unaryCallTimeoutSeconds t req) =
      ClientAction.fatalExit "Error calling SayHello" ∧
    streamingCallTimeoutSeconds = none := by
  have hd : runUnaryWithDeadline unaryCallTimeoutSeconds t req =
      UnaryOutcome.deadlineExceeded := by
    simp [runUnaryWithDeadline, unaryCallTimeoutSeconds, h]
  refine ⟨hd, ?_, rfl⟩
  rw [hd]
  rfl

/-- C8 witness: a 6-second handler exceeds the 5-second deadline and the
client exits fatally; the streaming call has no timeout. -/
theorem unary_timeout_spec_witness :
    runUnaryWithDeadline unaryCallTimeoutSeconds 6 { name := "Alice" } =
      UnaryOutcome.deadlineExceeded ∧
    clientUnaryReaction
        (runUnaryWithDeadline unaryCallTimeoutSeconds 6 { name := "Alice" }) =
      ClientAction.fatalExit "Error calling SayHello" ∧
    streamingCallTimeoutSeconds = none :=
  unary_timeout_spec 6 { name := "Alice" } (by norm_num)
